import Mathlib

/-!
Verification of the ladybug-rhino object-translation layer.

Shallow embedding of `ladybug_rhino/fromobjects.py` (`legend_objects`,
`compass_objects`) and `ladybug_rhino/config.py` (`conversion_factor`).
The geometry-kernel collaborators (`from_mesh3d`, `from_arc2d`,
`from_linesegment2d`, `text_objects`) are modelled as free constructors of a
discriminated `RhObject` type: they record exactly the arguments the
translation layer passes to them.  Numbers are rationals; the host Rhino
document is modelled as an optional unit-system name.
-/

/-- A 2D point; the translation code reads its `x` and `y` fields. -/
structure Point2D where
  x : ℚ
  y : ℚ
  deriving DecidableEq, Repr

/-- A 3D point, as constructed by `Point3D(pt.x, pt.y, z)` in the source. -/
structure Point3D where
  x : ℚ
  y : ℚ
  z : ℚ
  deriving DecidableEq, Repr

/-- A plane, as constructed by `Plane(o=Point3D(...))` in the source. -/
structure Plane where
  o : Point3D
  deriving DecidableEq, Repr

/-- An opaque 2D arc (boundary / altitude circle); the translation code only
passes it through to the geometry kernel. -/
structure Arc2D where
  tag : ℕ
  deriving DecidableEq, Repr

/-- An opaque 2D line segment (azimuth tick). -/
structure LineSegment2D where
  tag : ℕ
  deriving DecidableEq, Repr

/-- An opaque colored mesh. -/
structure Mesh3D where
  tag : ℕ
  deriving DecidableEq, Repr

/-- The closed set of output primitives produced by the translation layer. -/
inductive RhObject where
  | mesh (m : Mesh3D)
  | arc (a : Arc2D) (z : ℚ)
  | seg (l : LineSegment2D) (z : ℚ)
  | label (txt : String) (pl : Plane) (height : ℚ) (font : String)
      (hJust : Option ℕ) (vJust : Option ℕ)
  deriving DecidableEq, Repr

/-- Modelled from the spec: geometry-kernel constructor `from_arc2d(arc, z)`
lifting a 2D arc to height `z` (the kernel itself is external to the core). -/
def from_arc2d (a : Arc2D) (z : ℚ) : RhObject := RhObject.arc a z

/-- Modelled from the spec: geometry-kernel constructor
`from_linesegment2d(line, z)` lifting a 2D segment to height `z`. -/
def from_linesegment2d (l : LineSegment2D) (z : ℚ) : RhObject := RhObject.seg l z

/-- Modelled from the spec: geometry-kernel constructor `from_mesh3d(mesh)`. -/
def from_mesh3d (m : Mesh3D) : RhObject := RhObject.mesh m

/-- Modelled from the spec: geometry-kernel label constructor
`text_objects(text, plane, height, font, h_justify, v_justify)`.  The two
justification codes are `none` when the caller leaves them at the
constructor's defaults (the 4-argument call form in the source). -/
def text_objects (txt : String) (pl : Plane) (height : ℚ) (font : String)
    (hJust : Option ℕ) (vJust : Option ℕ) : RhObject :=
  RhObject.label txt pl height font hJust vJust

/-- Python `str.title()` restricted to ASCII, character by character: an
alphabetic character is uppercased when the previous character was not
alphabetic and lowercased otherwise; other characters pass through. -/
def str_title_aux : Bool → List Char → List Char
  | _, [] => []
  | prevAlpha, c :: cs =>
    (if c.isAlpha then (if prevAlpha then c.toLower else c.toUpper) else c) ::
      str_title_aux c.isAlpha cs

/-- Python `projection.title()` as used by `compass_objects`. -/
def str_title (s : String) : String := String.mk (str_title_aux false s.data)

/-- `legend.legend_parameters` as read by `legend_objects`. -/
structure LegendParameters where
  text_height : ℚ
  font : String
  continuous_legend : Bool
  vertical : Bool
  deriving DecidableEq, Repr

/-- The Ladybug `Legend` fields read by `legend_objects`. -/
structure Legend where
  legend_parameters : LegendParameters
  segment_mesh : Mesh3D
  title : String
  title_location : Plane
  segment_text : List String
  segment_text_location : List Plane
  deriving DecidableEq, Repr

/-- `legend_objects(legend)` from `ladybug_rhino/fromobjects.py`: the colored
mesh, then the title label (default justification), then one label per
`zip(segment_text, segment_text_location)` pair with justification codes
chosen by the `continuous_legend` / `vertical` branching of the source. -/
def legend_objects (legend : Legend) : List RhObject :=
  let _height := legend.legend_parameters.text_height
  let _font := legend.legend_parameters.font
  let legend_mesh := from_mesh3d legend.segment_mesh
  let legend_title := text_objects legend.title legend.title_location _height _font none none
  let legend_text :=
    if legend.legend_parameters.continuous_legend = false then
      (List.zip legend.segment_text legend.segment_text_location).map
        (fun p => text_objects p.1 p.2 _height _font (some 0) (some 5))
    else if legend.legend_parameters.vertical = true then
      (List.zip legend.segment_text legend.segment_text_location).map
        (fun p => text_objects p.1 p.2 _height _font (some 0) (some 3))
    else
      (List.zip legend.segment_text legend.segment_text_location).map
        (fun p => text_objects p.1 p.2 _height _font (some 1) (some 5))
  [legend_mesh] ++ [legend_title] ++ legend_text

/-- The Ladybug `Compass` fields and methods read by `compass_objects`.
Azimuth angles and altitude values are integers; their Python `str(...)`
rendering is `toString`.  The two `..._from_angles` methods belong to the
upstream geometry library and are abstract function fields here. -/
structure Compass where
  radius : ℚ
  all_boundary_circles : List Arc2D
  MAJOR_TEXT : List String
  major_azimuth_ticks : List LineSegment2D
  major_azimuth_points : List Point2D
  MINOR_TEXT : List String
  minor_azimuth_ticks : List LineSegment2D
  minor_azimuth_points : List Point2D
  ALTITUDES : List ℤ
  orthographic_altitude_circles : List Arc2D
  orthographic_altitude_points : List Point2D
  stereographic_altitude_circles : List Arc2D
  stereographic_altitude_points : List Point2D
  ticks_from_angles : List ℤ → List LineSegment2D
  label_points_from_angles : List ℤ → List Point2D

/-- `compass_objects(compass, z, custom_angles, projection, font)` from
`ladybug_rhino/fromobjects.py`: boundary-circle arcs, then the azimuth block
(default major/minor tiers when `custom_angles` is `None`, otherwise one tick
and one label per custom angle), then the altitude block selected by
`projection.title()` (nothing when the projection is `None` or unrecognized). -/
def compass_objects (compass : Compass) (z : ℚ) (custom_angles : Option (List ℤ))
    (projection : Option String) (font : String) : List RhObject :=
  let maj_txt := compass.radius / 20
  let min_txt := maj_txt / 2
  let boundary := compass.all_boundary_circles.map (fun circle => from_arc2d circle z)
  let azimuth :=
    match custom_angles with
    | none =>
      compass.major_azimuth_ticks.map (fun line => from_linesegment2d line z) ++
      (List.zip compass.MAJOR_TEXT compass.major_azimuth_points).map (fun p =>
        text_objects p.1 (Plane.mk (Point3D.mk p.2.x p.2.y z)) maj_txt font (some 1) (some 3)) ++
      compass.minor_azimuth_ticks.map (fun line => from_linesegment2d line z) ++
      (List.zip compass.MINOR_TEXT compass.minor_azimuth_points).map (fun p =>
        text_objects p.1 (Plane.mk (Point3D.mk p.2.x p.2.y z)) min_txt font (some 1) (some 3))
    | some angles =>
      (compass.ticks_from_angles angles).map (fun line => from_linesegment2d line z) ++
      (List.zip angles (compass.label_points_from_angles angles)).map (fun p =>
        text_objects (toString p.1) (Plane.mk (Point3D.mk p.2.x p.2.y z)) maj_txt font
          (some 1) (some 3))
  let altitude :=
    match projection with
    | none => []
    | some proj =>
      if str_title proj = "Orthographic" then
        compass.orthographic_altitude_circles.map (fun circle => from_arc2d circle z) ++
        (List.zip compass.ALTITUDES compass.orthographic_altitude_points).map (fun p =>
          text_objects (toString p.1) (Plane.mk (Point3D.mk p.2.x p.2.y z)) min_txt font
            (some 1) (some 0))
      else if str_title proj = "Stereographic" then
        compass.stereographic_altitude_circles.map (fun circle => from_arc2d circle z) ++
        (List.zip compass.ALTITUDES compass.stereographic_altitude_points).map (fun p =>
          text_objects (toString p.1) (Plane.mk (Point3D.mk p.2.x p.2.y z)) min_txt font
            (some 1) (some 0))
      else []
  boundary ++ azimuth ++ altitude

/-- `conversion_factor()` from `ladybug_rhino/config.py`.  The host Rhino
document is modelled by `doc : Option String` carrying its unit-system name
when present; the `ImportError` fallback is the `none` branch.  A raised
`ValueError` (unrecognized unit name) is the `none` result. -/
def conversion_factor (doc : Option String) : Option ℚ :=
  let units := match doc with
    | some u => u
    | none => "Meters"
  if units = "Meters" then some 1.0
  else if units = "Millimeters" then some 0.001
  else if units = "Feet" then some 0.305
  else if units = "Inches" then some 0.0254
  else if units = "Centimeters" then some 0.01
  else none

/-- The spec's segment-label justification table, written from the spec's
words (refinement target for the branching in `legend_objects`):
`continuous_legend = false` gives left(0)/middle(5) regardless of `vertical`;
continuous and vertical gives left(0)/top(3); continuous and horizontal gives
center(1)/middle(5). -/
def segment_label_justification (continuous vert : Bool) : ℕ × ℕ :=
  match continuous, vert with
  | false, _ => (0, 5)
  | true, true => (0, 3)
  | true, false => (1, 5)

/-- A concrete compass used to instantiate proved properties. -/
def sampleCompass : Compass where
  radius := 1
  all_boundary_circles := [⟨0⟩, ⟨1⟩, ⟨2⟩]
  MAJOR_TEXT := ["N"]
  major_azimuth_ticks := [⟨0⟩]
  major_azimuth_points := [⟨0, 1⟩]
  MINOR_TEXT := ["NE"]
  minor_azimuth_ticks := [⟨1⟩]
  minor_azimuth_points := [⟨1, 1⟩]
  ALTITUDES := [6]
  orthographic_altitude_circles := [⟨3⟩]
  orthographic_altitude_points := [⟨0, 2⟩]
  stereographic_altitude_circles := [⟨4⟩]
  stereographic_altitude_points := [⟨0, 3⟩]
  ticks_from_angles := fun angles => angles.map (fun a => ⟨a.natAbs⟩)
  label_points_from_angles := fun angles => angles.map (fun a => ⟨(a : ℚ), 0⟩)

/-- A concrete legend used to instantiate proved properties. -/
def sampleLegend : Legend where
  legend_parameters := ⟨1, "Arial", false, false⟩
  segment_mesh := ⟨0⟩
  title := "T"
  title_location := ⟨⟨0, 0, 0⟩⟩
  segment_text := ["a"]
  segment_text_location := [⟨⟨1, 0, 0⟩⟩]

/-- The altitude block of `compass_objects` (its third section), written out
as a standalone function of the same fields so that decomposition lemmas can
name it. -/
def altitude_objects (compass : Compass) (z : ℚ) (projection : Option String)
    (font : String) : List RhObject :=
  let min_txt := compass.radius / 20 / 2
  match projection with
  | none => []
  | some proj =>
    if str_title proj = "Orthographic" then
      compass.orthographic_altitude_circles.map (fun circle => from_arc2d circle z) ++
      (List.zip compass.ALTITUDES compass.orthographic_altitude_points).map (fun p =>
        text_objects (toString p.1) (Plane.mk (Point3D.mk p.2.x p.2.y z)) min_txt font
          (some 1) (some 0))
    else if str_title proj = "Stereographic" then
      compass.stereographic_altitude_circles.map (fun circle => from_arc2d circle z) ++
      (List.zip compass.ALTITUDES compass.stereographic_altitude_points).map (fun p =>
        text_objects (toString p.1) (Plane.mk (Point3D.mk p.2.x p.2.y z)) min_txt font
          (some 1) (some 0))
    else []

/-- `zip` only consumes the common prefix of its arguments. -/
theorem zip_take_min {α β : Type} (a : List α) (b : List β) :
    List.zip (a.take (min a.length b.length)) (b.take (min a.length b.length)) =
      List.zip a b := by
  induction a generalizing b with
  | nil => simp
  | cons x xs ih =>
    cases b with
    | nil => simp
    | cons y ys =>
      simp only [List.length_cons, List.zip_cons_cons]
      rw [Nat.succ_min_succ, List.take_succ_cons, List.take_succ_cons,
        List.zip_cons_cons, ih]

/-- C9: `conversion_factor` returns 1.0 for Meters, 0.001 for Millimeters,
0.305 for Feet, 0.0254 for Inches and 0.01 for Centimeters; it fails (raises
`ValueError`, modelled as `none`) exactly when the unit name is none of these
five; with no host document it falls back to Meters and returns 1.0. -/
theorem conversion_factor_spec :
    conversion_factor (some "Meters") = some 1.0 ∧
    conversion_factor (some "Millimeters") = some 0.001 ∧
    conversion_factor (some "Feet") = some 0.305 ∧
    conversion_factor (some "Inches") = some 0.0254 ∧
    conversion_factor (some "Centimeters") = some 0.01 ∧
    (∀ u : String, conversion_factor (some u) = none ↔
      u ∉ ["Meters", "Millimeters", "Feet", "Inches", "Centimeters"]) ∧
    conversion_factor none = some 1.0 := by
  refine ⟨rfl, rfl, rfl, rfl, rfl, ?_, rfl⟩
  intro u
  by_cases h1 : u = "Meters" <;> by_cases h2 : u = "Millimeters" <;>
    by_cases h3 : u = "Feet" <;> by_cases h4 : u = "Inches" <;>
    by_cases h5 : u = "Centimeters" <;>
    simp_all [conversion_factor]

/-- C10: `legend_objects` pairs segment texts with locations by index up to
the shorter sequence: the result has `2 + min` elements and is unchanged when
each sequence is truncated to the common length (excess entries ignored). -/
theorem legend_objects_truncates (l : Legend) :
    (legend_objects l).length =
      2 + min l.segment_text.length l.segment_text_location.length ∧
    legend_objects l = legend_objects
      { l with
        segment_text :=
          l.segment_text.take (min l.segment_text.length l.segment_text_location.length),
        segment_text_location :=
          l.segment_text_location.take
            (min l.segment_text.length l.segment_text_location.length) } := by
  have hz := zip_take_min l.segment_text l.segment_text_location
  constructor
  · simp only [legend_objects, List.length_append, List.length_singleton]
    split_ifs <;> simp only [List.length_map, List.length_zip]
  · simp only [legend_objects, hz]

/-- C7: for a legend with `n` index-aligned segment entries, `legend_objects`
returns `n + 2` primitives: the mesh, then the title label, then one label
per `(segment_text, segment_text_location)` pair, in that order. -/
theorem legend_objects_layout (l : Legend) (n : ℕ)
    (h1 : l.segment_text.length = n) (h2 : l.segment_text_location.length = n) :
    (legend_objects l).length = n + 2 ∧
    (legend_objects l).take 2 =
      [from_mesh3d l.segment_mesh,
       text_objects l.title l.title_location l.legend_parameters.text_height
         l.legend_parameters.font none none] ∧
    ∃ hj vj : ℕ, (legend_objects l).drop 2 =
      (List.zip l.segment_text l.segment_text_location).map (fun p =>
        text_objects p.1 p.2 l.legend_parameters.text_height
          l.legend_parameters.font (some hj) (some vj)) := by
  refine ⟨?_, ?_, ?_⟩
  · simp only [legend_objects, List.length_append, List.length_singleton]
    split_ifs <;> simp only [List.length_map, List.length_zip, h1, h2] <;> omega
  · simp only [legend_objects]
    split_ifs <;> rfl
  · simp only [legend_objects]
    split_ifs
    · exact ⟨0, 5, rfl⟩
    · exact ⟨0, 3, rfl⟩
    · exact ⟨1, 5, rfl⟩

/-- C7 witness: the sample legend has one segment entry and `legend_objects`
returns three primitives for it. -/
theorem legend_objects_layout_witness :
    (legend_objects sampleLegend).length = 1 + 2 :=
  (legend_objects_layout sampleLegend 1 rfl rfl).1

/-- C8: the justification codes of every segment label are the pure function
`segment_label_justification` of `(continuous_legend, vertical)`: `(false, _)`
gives left(0)/middle(5), `(true, true)` gives left(0)/top(3) and
`(true, false)` gives center(1)/middle(5). -/
theorem legend_objects_justification (l : Legend) :
    (legend_objects l).drop 2 =
      (List.zip l.segment_text l.segment_text_location).map (fun p =>
        text_objects p.1 p.2 l.legend_parameters.text_height
          l.legend_parameters.font
          (some (segment_label_justification l.legend_parameters.continuous_legend
            l.legend_parameters.vertical).1)
          (some (segment_label_justification l.legend_parameters.continuous_legend
            l.legend_parameters.vertical).2)) := by
  rcases hc : l.legend_parameters.continuous_legend <;>
    rcases hv : l.legend_parameters.vertical <;>
    simp only [legend_objects, segment_label_justification, hc, hv] <;> rfl

/-- C1: in default mode (`custom_angles = None`, `projection = None`) with 3
boundary circles, `m` index-aligned major ticks/labels and `n` index-aligned
minor ticks/labels, `compass_objects` returns `3 + 2m + 2n` primitives in the
order: 3 boundary arcs, `m` major tick lines, `m` major labels at height
`radius/20` with justification center(1)/top(3), `n` minor tick lines, `n`
minor labels at height `radius/40` with the same justification codes. -/
theorem compass_objects_default_layout (c : Compass) (z : ℚ) (font : String)
    (m n : ℕ)
    (hb : c.all_boundary_circles.length = 3)
    (hmt : c.major_azimuth_ticks.length = m)
    (hmx : c.MAJOR_TEXT.length = m)
    (hmp : c.major_azimuth_points.length = m)
    (hnt : c.minor_azimuth_ticks.length = n)
    (hnx : c.MINOR_TEXT.length = n)
    (hnp : c.minor_azimuth_points.length = n) :
    (compass_objects c z none none font).length = 3 + 2 * m + 2 * n ∧
    (compass_objects c z none none font).take 3 =
      c.all_boundary_circles.map (fun circle => from_arc2d circle z) ∧
    ((compass_objects c z none none font).drop 3).take m =
      c.major_azimuth_ticks.map (fun line => from_linesegment2d line z) ∧
    ((compass_objects c z none none font).drop (3 + m)).take m =
      (List.zip c.MAJOR_TEXT c.major_azimuth_points).map (fun p =>
        text_objects p.1 (Plane.mk (Point3D.mk p.2.x p.2.y z)) (c.radius / 20) font
          (some 1) (some 3)) ∧
    ((compass_objects c z none none font).drop (3 + m + m)).take n =
      c.minor_azimuth_ticks.map (fun line => from_linesegment2d line z) ∧
    (compass_objects c z none none font).drop (3 + m + m + n) =
      (List.zip c.MINOR_TEXT c.minor_azimuth_points).map (fun p =>
        text_objects p.1 (Plane.mk (Point3D.mk p.2.x p.2.y z)) (c.radius / 40) font
          (some 1) (some 3)) := by
  have hdiv : c.radius / 20 / 2 = c.radius / 40 := by
    rw [div_div]; norm_num
  have key : compass_objects c z none none font =
      c.all_boundary_circles.map (fun circle => from_arc2d circle z) ++
      (c.major_azimuth_ticks.map (fun line => from_linesegment2d line z) ++
      ((List.zip c.MAJOR_TEXT c.major_azimuth_points).map (fun p =>
        text_objects p.1 (Plane.mk (Point3D.mk p.2.x p.2.y z)) (c.radius / 20) font
          (some 1) (some 3)) ++
      (c.minor_azimuth_ticks.map (fun line => from_linesegment2d line z) ++
      (List.zip c.MINOR_TEXT c.minor_azimuth_points).map (fun p =>
        text_objects p.1 (Plane.mk (Point3D.mk p.2.x p.2.y z)) (c.radius / 40) font
          (some 1) (some 3))))) := by
    simp only [compass_objects, hdiv, List.append_nil, List.append_assoc]
  rw [key]
  have d1 : ∀ R : List RhObject,
      (c.all_boundary_circles.map (fun circle => from_arc2d circle z) ++ R).drop 3 = R :=
    fun R => List.drop_left' (by simp [hb])
  have d2 : ∀ R : List RhObject,
      (c.major_azimuth_ticks.map (fun line => from_linesegment2d line z) ++ R).drop m = R :=
    fun R => List.drop_left' (by simp [hmt])
  have d3 : ∀ R : List RhObject,
      ((List.zip c.MAJOR_TEXT c.major_azimuth_points).map (fun p =>
        text_objects p.1 (Plane.mk (Point3D.mk p.2.x p.2.y z)) (c.radius / 20) font
          (some 1) (some 3)) ++ R).drop m = R :=
    fun R => List.drop_left' (by simp [List.length_zip, hmx, hmp])
  have d4 : ∀ R : List RhObject,
      (c.minor_azimuth_ticks.map (fun line => from_linesegment2d line z) ++ R).drop n = R :=
    fun R => List.drop_left' (by simp [hnt])
  refine ⟨?_, ?_, ?_, ?_, ?_, ?_⟩
  · simp only [List.length_append, List.length_map, List.length_zip, hb, hmt, hmx,
      hmp, hnt, hnx, hnp]
    omega
  · exact List.take_left' (by simp [hb])
  · rw [d1]
    exact List.take_left' (by simp [hmt])
  · rw [← List.drop_drop, d1, d2]
    exact List.take_left' (by simp [List.length_zip, hmx, hmp])
  · rw [← List.drop_drop, ← List.drop_drop, d1, d2, d3]
    exact List.take_left' (by simp [hnt])
  · rw [← List.drop_drop, ← List.drop_drop, ← List.drop_drop, d1, d2, d3, d4]

/-- C1 witness: the sample compass (3 boundary circles, one major and one
minor tick/label) yields `3 + 2 + 2` primitives in default mode. -/
theorem compass_objects_default_layout_witness :
    (compass_objects sampleCompass 0 none none "Arial").length = 3 + 2 * 1 + 2 * 1 :=
  (compass_objects_default_layout sampleCompass 0 "Arial" 1 1
    rfl rfl rfl rfl rfl rfl rfl).1


/-- C2: in custom mode the azimuth block is exactly `k` tick lines from
`ticks_from_angles` followed by `k` labels whose text is the decimal string
of each angle, at height `radius/20` with justification center(1)/top(3);
with no projection the whole result is `b + 2k` primitives, and the output
never depends on the minor-tier fields of the descriptor. -/
theorem compass_objects_custom_azimuth (c : Compass) (z : ℚ) (angles : List ℤ)
    (proj : Option String) (font : String) (k : ℕ)
    (ha : angles.length = k)
    (ht : (c.ticks_from_angles angles).length = k)
    (hp : (c.label_points_from_angles angles).length = k) :
    (compass_objects c z (some angles) none font).length =
      c.all_boundary_circles.length + 2 * k ∧
    ((compass_objects c z (some angles) proj font).drop
        c.all_boundary_circles.length).take k =
      (c.ticks_from_angles angles).map (fun line => from_linesegment2d line z) ∧
    ((compass_objects c z (some angles) proj font).drop
        (c.all_boundary_circles.length + k)).take k =
      (List.zip angles (c.label_points_from_angles angles)).map (fun p =>
        text_objects (toString p.1) (Plane.mk (Point3D.mk p.2.x p.2.y z))
          (c.radius / 20) font (some 1) (some 3)) ∧
    ∀ mt mx mp, compass_objects
        { c with minor_azimuth_ticks := mt, MINOR_TEXT := mx,
                 minor_azimuth_points := mp } z (some angles) proj font =
      compass_objects c z (some angles) proj font := by
  have hR : compass_objects c z (some angles) proj font =
      c.all_boundary_circles.map (fun circle => from_arc2d circle z) ++
      ((c.ticks_from_angles angles).map (fun line => from_linesegment2d line z) ++
      ((List.zip angles (c.label_points_from_angles angles)).map (fun p =>
        text_objects (toString p.1) (Plane.mk (Point3D.mk p.2.x p.2.y z))
          (c.radius / 20) font (some 1) (some 3)) ++
        altitude_objects c z proj font)) := by
    simp only [compass_objects, altitude_objects, List.append_assoc]
  have key0 : compass_objects c z (some angles) none font =
      c.all_boundary_circles.map (fun circle => from_arc2d circle z) ++
      ((c.ticks_from_angles angles).map (fun line => from_linesegment2d line z) ++
      (List.zip angles (c.label_points_from_angles angles)).map (fun p =>
        text_objects (toString p.1) (Plane.mk (Point3D.mk p.2.x p.2.y z))
          (c.radius / 20) font (some 1) (some 3))) := by
    simp only [compass_objects, List.append_assoc, List.append_nil]
  have d1 : ∀ X : List RhObject,
      (c.all_boundary_circles.map (fun circle => from_arc2d circle z) ++ X).drop
        c.all_boundary_circles.length = X :=
    fun X => List.drop_left' (by simp)
  have d2 : ∀ X : List RhObject,
      ((c.ticks_from_angles angles).map (fun line => from_linesegment2d line z) ++ X).drop
        k = X :=
    fun X => List.drop_left' (by simp [ht])
  refine ⟨?_, ?_, ?_, ?_⟩
  · rw [key0]
    simp only [List.length_append, List.length_map, List.length_zip, ha, hp, ht]
    omega
  · rw [hR, d1]
    exact List.take_left' (by simp [ht])
  · rw [hR, ← List.drop_drop, d1, d2]
    exact List.take_left' (by simp [List.length_zip, ha, hp])
  · intro mt mx mp
    rfl

/-- C2 witness: the sample compass with custom angles `[45]` yields `3 + 2`
primitives when no projection is requested. -/
theorem compass_objects_custom_azimuth_witness :
    (compass_objects sampleCompass 0 (some [45]) none "Arial").length =
      sampleCompass.all_boundary_circles.length + 2 * 1 :=
  (compass_objects_custom_azimuth sampleCompass 0 [45] none "Arial" 1
    rfl rfl rfl).1

/-- `compass_objects` is the `projection = None` output followed by the
altitude block. -/
theorem compass_objects_decomp (c : Compass) (z : ℚ) (ca : Option (List ℤ))
    (proj : Option String) (font : String) :
    compass_objects c z ca proj font =
      compass_objects c z ca none font ++ altitude_objects c z proj font := by
  rcases ca with _ | angles <;>
    simp only [compass_objects, altitude_objects, List.append_assoc, List.append_nil]

/-- `compass_objects` reads the projection name only through `str_title`. -/
theorem compass_objects_title_congr (c : Compass) (z : ℚ) (ca : Option (List ℤ))
    (font : String) (p q : String) (h : str_title p = str_title q) :
    compass_objects c z ca (some p) font = compass_objects c z ca (some q) font := by
  rw [compass_objects_decomp, compass_objects_decomp c z ca (some q) font]
  simp only [altitude_objects, h]

/-- C3: when the projection name titlecases to `Orthographic`,
`compass_objects` appends, after the azimuth block (the `projection = None`
output), one arc per orthographic altitude circle and one label per
`(ALTITUDES, orthographic_altitude_points)` pair with the altitude's decimal
string, height `radius/40`, justification center(1)/baseline(0); for
`Stereographic` the same structure uses the stereographic sequences. -/
theorem compass_objects_altitude_block (c : Compass) (z : ℚ) (ca : Option (List ℤ))
    (font : String) (proj : String) :
    (str_title proj = "Orthographic" →
      compass_objects c z ca (some proj) font =
        compass_objects c z ca none font ++
        (c.orthographic_altitude_circles.map (fun circle => from_arc2d circle z) ++
        (List.zip c.ALTITUDES c.orthographic_altitude_points).map (fun p =>
          text_objects (toString p.1) (Plane.mk (Point3D.mk p.2.x p.2.y z))
            (c.radius / 40) font (some 1) (some 0)))) ∧
    (str_title proj = "Stereographic" →
      compass_objects c z ca (some proj) font =
        compass_objects c z ca none font ++
        (c.stereographic_altitude_circles.map (fun circle => from_arc2d circle z) ++
        (List.zip c.ALTITUDES c.stereographic_altitude_points).map (fun p =>
          text_objects (toString p.1) (Plane.mk (Point3D.mk p.2.x p.2.y z))
            (c.radius / 40) font (some 1) (some 0)))) := by
  have hdiv : c.radius / 20 / 2 = c.radius / 40 := by rw [div_div]; norm_num
  constructor <;> intro h <;> rw [compass_objects_decomp] <;>
    simp only [altitude_objects, h, hdiv] <;> simp

/-- C3 witness: the orthographic altitude block of the sample compass at
projection name `orthographic`. -/
theorem compass_objects_altitude_block_witness :
    compass_objects sampleCompass 0 none (some "orthographic") "Arial" =
      compass_objects sampleCompass 0 none none "Arial" ++
      (sampleCompass.orthographic_altitude_circles.map (fun circle => from_arc2d circle 0) ++
      (List.zip sampleCompass.ALTITUDES sampleCompass.orthographic_altitude_points).map
        (fun p => text_objects (toString p.1) (Plane.mk (Point3D.mk p.2.x p.2.y 0))
          (sampleCompass.radius / 40) "Arial" (some 1) (some 0))) :=
  (compass_objects_altitude_block sampleCompass 0 none "Arial" "orthographic").1
    (by decide)

/-- C4: any casing of a recognized projection name produces the identical
primitive sequence, because the name is normalized with `title()` before
comparison. -/
theorem compass_objects_case_insensitive (c : Compass) (z : ℚ) (ca : Option (List ℤ))
    (font : String) :
    compass_objects c z ca (some "orthographic") font =
      compass_objects c z ca (some "Orthographic") font ∧
    compass_objects c z ca (some "ORTHOGRAPHIC") font =
      compass_objects c z ca (some "Orthographic") font ∧
    compass_objects c z ca (some "stereographic") font =
      compass_objects c z ca (some "Stereographic") font ∧
    compass_objects c z ca (some "STEREOGRAPHIC") font =
      compass_objects c z ca (some "Stereographic") font :=
  ⟨compass_objects_title_congr c z ca font _ _ (by decide),
   compass_objects_title_congr c z ca font _ _ (by decide),
   compass_objects_title_congr c z ca font _ _ (by decide),
   compass_objects_title_congr c z ca font _ _ (by decide)⟩

/-- C5: a projection name that titlecases to neither recognized name is a
silent no-op: the output equals the `projection = None` output. -/
theorem compass_objects_unrecognized_projection (c : Compass) (z : ℚ)
    (ca : Option (List ℤ)) (font : String) (proj : String)
    (h1 : str_title proj ≠ "Orthographic")
    (h2 : str_title proj ≠ "Stereographic") :
    compass_objects c z ca (some proj) font = compass_objects c z ca none font := by
  rw [compass_objects_decomp]
  simp only [altitude_objects, if_neg h1, if_neg h2, List.append_nil]

/-- C5 witness: projection name `Unknown` yields exactly the no-projection
output on the sample compass. -/
theorem compass_objects_unrecognized_projection_witness :
    compass_objects sampleCompass 0 none (some "Unknown") "Arial" =
      compass_objects sampleCompass 0 none none "Arial" :=
  compass_objects_unrecognized_projection sampleCompass 0 none "Arial" "Unknown"
    (by decide) (by decide)

/-- C6: every text label anywhere in a `compass_objects` output has height
`radius/20` (major tier) or `radius/40` (minor tier and altitude labels),
and the minor height is exactly half the major height; both are derived from
the radius alone. -/
theorem compass_objects_label_heights (c : Compass) (z : ℚ) (ca : Option (List ℤ))
    (proj : Option String) (font : String) :
    (∀ o ∈ compass_objects c z ca proj font, ∀ txt pl h f hj vj,
      o = RhObject.label txt pl h f hj vj →
        h = c.radius / 20 ∨ h = c.radius / 40) ∧
    c.radius / 40 = c.radius / 20 / 2 := by
  have hdiv : c.radius / 20 / 2 = c.radius / 40 := by rw [div_div]; norm_num
  refine ⟨?_, hdiv.symm⟩
  intro o ho txt pl h f hj vj ho2
  subst ho2
  rw [compass_objects_decomp] at ho
  rcases List.mem_append.1 ho with ho | ho
  · rcases ca with _ | angles <;>
      simp [compass_objects, from_arc2d, from_linesegment2d, text_objects, hdiv] at ho <;>
      aesop
  · rcases proj with _ | p
    · simp [altitude_objects] at ho
    · simp only [altitude_objects] at ho
      split_ifs at ho <;>
        simp [from_arc2d, text_objects, hdiv] at ho <;>
        aesop

/-- C6 witness: the major label of the sample compass is in the default-mode
output and its height is one of the two derived heights. -/
theorem compass_objects_label_heights_witness :
    sampleCompass.radius / 20 = sampleCompass.radius / 20 ∨
      sampleCompass.radius / 20 = sampleCompass.radius / 40 :=
  (compass_objects_label_heights sampleCompass 0 none none "Arial").1
    (RhObject.label "N" (Plane.mk (Point3D.mk 0 1 0)) (sampleCompass.radius / 20)
      "Arial" (some 1) (some 3))
    (by simp [compass_objects, sampleCompass, from_arc2d, from_linesegment2d,
      text_objects]) "N" (Plane.mk (Point3D.mk 0 1 0)) (sampleCompass.radius / 20)
    "Arial" (some 1) (some 3) rfl
